import Mathlib

/-!
Verification of the core of the typed-builder derive macro
(src/struct_info.rs).

The generator turns a struct description (a `Schema`) into four code
fragments: the builder type with its zero-argument constructor, a
conversion-helper trait with its two impls, one setter per included
field, and the finalize (`build`) method.  We embed the generator as
pure Lean functions from the schema to structured descriptions of the
emitted token streams, and the runtime meaning of the emitted finalize
body as an explicit evaluator.

Types emitted into the generated code are modelled by `TypeExpr`;
user-written types (the declared type of a field, a default
expression) are opaque strings, since the generator never inspects
them, it only splices them.
-/

set_option autoImplicit false

namespace TypedBuilder

/-- Generic parameters of the original struct, and of the generated
builder type.  `typeParam` carries the bounds the generator attaches
(the source pushes `syn::TypeParam` values with a bound list); the
struct's own parameters are modelled with an empty bound list because
the generator never reads or edits user bounds, it only clones them. -/
inductive TypeParamBound where
  /-- The bound `#core::convert::Into<field_type>` attached to a setter's value
  parameter (struct_info.rs line 238). -/
  | intoBound (coreAlias : String) (ty : String)
  /-- The bound `#conversion_helper_trait_name<field_type>` attached to an
  optional field's generic in the build impl (struct_info.rs lines 255-271). -/
  | helperBound (traitName : String) (ty : String)
  deriving Repr, DecidableEq

inductive GenericParam where
  | lifetime (ident : String)
  | typeParam (ident : String) (bounds : List TypeParamBound)
  | constParam (ident : String)
  deriving Repr, DecidableEq

/-- Types appearing in the generated token streams. -/
inductive TypeExpr where
  /-- A plain identifier or user-written type, spliced verbatim. -/
  | ident (name : String)
  /-- The empty tuple type from `empty_type()`: the unset-shape marker. -/
  | unit
  /-- The one-element tuple type `(T,)`: the set-shape of a field. -/
  | tuple1 (t : TypeExpr)
  /-- The phantom carrier entry `#core::marker::PhantomData<t>`
  (struct_info.rs line 100). -/
  | phantomData (coreAlias : String) (t : TypeExpr)
  /-- The type `&lifetime ()` used as a PhantomData argument for a lifetime
  parameter (struct_info.rs line 90). -/
  | lifetimeRefUnit (lt : String)
  deriving Repr, DecidableEq

/-- A generic argument in an instantiation of the builder type. -/
inductive GenericArgument where
  | lifetime (ident : String)
  | type (t : TypeExpr)
  deriving Repr, DecidableEq

/-- Expressions appearing in generated method bodies. -/
inductive Expr where
  /-- The unset marker value `()`. -/
  | unitVal
  /-- The call `#core::default::Default::default()` initializing the phantom
  slot (struct_info.rs line 149). -/
  | coreDefaultCall (coreAlias : String)
  /-- Reading a field of the consumed builder: `self.name`. -/
  | selfField (name : String)
  /-- Reading the phantom slot: `self._TypedBuilder__phantomGenerics_`. -/
  | selfPhantom
  /-- The stored tuple `(value.into(),)` in a setter body
  (struct_info.rs line 241). -/
  | intoTuple
  deriving Repr, DecidableEq

/-- Per-field builder attributes.  Extracted from `#[builder(...)]` markers
by field_info.rs (out of scope of the core); the core only reads these
three components. -/
structure FieldBuilderAttr where
  default : Option String
  exclude : Bool
  doc : Option String
  deriving Repr, DecidableEq

/-- A struct field as handed to `StructInfo::new` (syn::Field plus its
already-extracted builder attribute). -/
structure RawField where
  name : String
  ty : String
  builder_attr : FieldBuilderAttr
  deriving Repr, DecidableEq

/-- Mirrors `FieldInfo` of field_info.rs: the per-field data the core
consumes (`ordinal`, `name`, `ty`, `generic_ident`, `builder_attr`). -/
structure FieldInfo where
  ordinal : Nat
  name : String
  ty : String
  generic_ident : String
  builder_attr : FieldBuilderAttr
  deriving Repr, DecidableEq

/-- Modelled from the spec: `make_identifier` lives in util.rs, which is not
part of the core sources.  The spec requires auxiliary identifiers to be
"derived deterministically from the record name" by "simple name
concatenation with a fixed suffix", with no counter or global state. -/
def make_identifier (kind : String) (name : String) : String :=
  "TypedBuilder_" ++ kind ++ "_" ++ name

/-- Modelled from the spec: `FieldInfo::new(i, f)` lives in field_info.rs,
which is not part of the core sources.  The spec fixes its contract: the
ordinal is the 0-based declaration position (the index `i` passed by
`StructInfo::new`), and `generic_ident` is a freshly minted per-field
generic identifier, derived deterministically from the field name. -/
def FieldInfo.new (i : Nat) (f : RawField) : FieldInfo :=
  { ordinal := i
    name := f.name
    ty := f.ty
    generic_ident := make_identifier "genericType" f.name
    builder_attr := f.builder_attr }

/-- Mirrors `f.generic_ty_param()`: a fresh unbounded type parameter named by
the field's generic identifier. -/
def FieldInfo.generic_ty_param (f : FieldInfo) : GenericParam :=
  .typeParam f.generic_ident []

/-- Mirrors `f.tuplized_type_ty_param()`: the set-shape `(field_type,)`. -/
def FieldInfo.tuplized_type_ty_param (f : FieldInfo) : TypeExpr :=
  .tuple1 (.ident f.ty)

/-- Mirrors `f.type_ident()`: the field's generic identifier used as a type. -/
def FieldInfo.type_ident (f : FieldInfo) : TypeExpr :=
  .ident f.generic_ident

/-- Struct-level builder attributes (`TypeBuilderAttr` of builder_attr.rs).
Attribute parsing is the out-of-scope schema extractor; the core reads the
already-parsed value. -/
structure TypeBuilderAttr where
  name : Option String
  doc : Bool
  builder_method_doc : Option String
  builder_type_doc : Option String
  build_method_doc : Option String
  deriving Repr, DecidableEq

/-- The input record description (`syn::DeriveInput`), with the
`#[builder(...)]` attribute already extracted (find_builder_attr delegates
that parse to the out-of-scope builder_attr.rs). -/
structure DeriveInput where
  ident : String
  vis : String
  generics : List GenericParam
  builder_attr : TypeBuilderAttr
  deriving Repr, DecidableEq

/-- Mirrors `StructInfo` of struct_info.rs lines 12-24. -/
structure StructInfo where
  vis : String
  name : String
  generics : List GenericParam
  fields : List FieldInfo
  builder_attr : TypeBuilderAttr
  builder_name : String
  conversion_helper_trait_name : String
  conversion_helper_method_name : String
  core : String
  deriving Repr, DecidableEq

/-- Mirrors `StructInfo::included_fields` (struct_info.rs lines 27-29). -/
def StructInfo.included_fields (s : StructInfo) : List FieldInfo :=
  s.fields.filter (fun f => !f.builder_attr.exclude)

/-- Mirrors `StructInfo::new` (struct_info.rs lines 31-48).  The fallible
parts of the original (attribute parsing) belong to the out-of-scope
extractor and are received already parsed in `ast.builder_attr`. -/
def StructInfo.new (ast : DeriveInput) (fields : List RawField) : StructInfo :=
  let builder_name := match ast.builder_attr.name with
    | some name => name
    | none => ast.ident ++ "Builder"
  { vis := ast.vis
    name := ast.ident
    generics := ast.generics
    fields := (fields.enum.map (fun p => FieldInfo.new p.1 p.2))
    builder_attr := ast.builder_attr
    builder_name := builder_name
    conversion_helper_trait_name := make_identifier "conversionHelperTrait" ast.ident
    conversion_helper_method_name := make_identifier "conversionHelperMethod" ast.ident
    core := make_identifier "core" ast.ident }

/-- Mirrors how the struct's own generic parameters are turned into generic
arguments: `split_for_impl`'s `ty_generics` (used by builder_creation_impl
and build_method_impl) and the explicit loop of field_impl lines 200-214
both produce, in order, one argument per declared parameter, the lifetime
or the bare identifier. -/
def structTyGenericsArgs (generics : List GenericParam) : List GenericArgument :=
  generics.map (fun p =>
    match p with
    | .lifetime i => .lifetime i
    | .typeParam i _ => .type (.ident i)
    | .constParam i => .type (.ident i))

/-- The name of the phantom storage slot of the builder. -/
def phantomFieldName : String := "_TypedBuilder__phantomGenerics_"

/-- Structured content of the token stream returned by
`builder_creation_impl` (struct_info.rs lines 142-162), leaving out the doc
attributes (pure text). -/
structure BuilderCreationOutput where
  /-- The alias minted in `extern crate core as #core`. -/
  core_alias_decl : String
  vis : String
  struct_name : String
  builder_name : String
  /-- The generic arguments of the builder type returned by `builder()`:
  `generics_with_empty` (lines 83-87). -/
  builder_return_generics : List GenericArgument
  /-- The initializer of the phantom slot in the `builder()` body. -/
  body_phantom_init : Expr
  /-- The remaining field initializers of the `builder()` body:
  `init_empties` (lines 67-70). -/
  body_field_inits : List (String × Expr)
  /-- The generic parameters of the builder struct declaration:
  `b_generics` (lines 78-82). -/
  struct_generics : List GenericParam
  /-- The component types of the phantom slot's tuple type:
  `phantom_generics` (lines 88-101). -/
  struct_phantom_tys : List TypeExpr
  /-- The storage slots of the builder struct: `builder_generics`
  (lines 71-75), each field typed by its generic identifier. -/
  struct_field_slots : List (String × String)
  deriving Repr, DecidableEq

/-- Mirrors `StructInfo::builder_creation_impl` (struct_info.rs
lines 66-163). -/
def StructInfo.builder_creation_impl (s : StructInfo) : BuilderCreationOutput :=
  let init_empties := s.included_fields.map (fun f => (f.name, Expr.unitVal))
  let builder_generics := s.included_fields.map (fun f => (f.name, f.generic_ident))
  let b_generics := s.generics ++ s.included_fields.map (fun f => f.generic_ty_param)
  let generics_with_empty :=
    structTyGenericsArgs s.generics
      ++ s.included_fields.map (fun _ => GenericArgument.type .unit)
  let phantom_generics := s.generics.map (fun param =>
    match param with
    | .lifetime lt => TypeExpr.phantomData s.core (.lifetimeRefUnit lt)
    | .typeParam i _ => TypeExpr.phantomData s.core (.ident i)
    | .constParam i => TypeExpr.phantomData s.core (.ident i))
  { core_alias_decl := s.core
    vis := s.vis
    struct_name := s.name
    builder_name := s.builder_name
    builder_return_generics := generics_with_empty
    body_phantom_init := .coreDefaultCall s.core
    body_field_inits := init_empties
    struct_generics := b_generics
    struct_phantom_tys := phantom_generics
    struct_field_slots := builder_generics }

/-- One generated impl of the conversion-helper trait
(struct_info.rs lines 178-188). -/
inductive HelperImpl where
  /-- The impl `impl<T> #trait_name<T> for ()`: its method body returns the
  `default` argument. -/
  | forUnit (traitName : String) (methodName : String)
  /-- The impl `impl<T> #trait_name<T> for (T,)`: its method body returns
  `self.0`, ignoring the `default` argument. -/
  | forTuple (traitName : String) (methodName : String)
  deriving Repr, DecidableEq

/-- Structured content of the token stream returned by
`conversion_helper_impl` (struct_info.rs lines 171-189). -/
structure ConversionHelperOutput where
  trait_name : String
  method_name : String
  impls : List HelperImpl
  deriving Repr, DecidableEq

/-- Mirrors `StructInfo::conversion_helper_impl` (struct_info.rs
lines 167-190): the trait declaration plus exactly its two impls. -/
def StructInfo.conversion_helper_impl (s : StructInfo) : ConversionHelperOutput :=
  { trait_name := s.conversion_helper_trait_name
    method_name := s.conversion_helper_method_name
    impls := [.forUnit s.conversion_helper_trait_name s.conversion_helper_method_name,
              .forTuple s.conversion_helper_trait_name s.conversion_helper_method_name] }

/-- Structured content of the token stream returned by `field_impl`
(struct_info.rs lines 234-246) for one field. -/
structure FieldImplOutput where
  builder_name : String
  /-- The generic parameters of the impl: the struct's own plus one per
  other included field (the loop's `g.params.push`, line 222). -/
  impl_generics : List GenericParam
  /-- The generic arguments of the receiver builder type: `ty_generics`. -/
  receiver_generics : List GenericArgument
  setter_name : String
  /-- The setter's value-parameter generic and its Into bound (line 238). -/
  value_generic : String
  value_bound : TypeParamBound
  /-- The generic arguments of the returned builder type:
  `target_generics`. -/
  result_generics : List GenericArgument
  /-- The record literal of the setter body (lines 239-243), in emission
  order: phantom slot, the set field, then the other fields. -/
  body_inits : List (String × Expr)
  deriving Repr, DecidableEq

/-- Mirrors `StructInfo::field_impl` (struct_info.rs lines 192-247).  The
source builds `ty_generics` and `target_generics` by starting from the
struct's own generic arguments and pushing, for every included field in
order, either the empty type and the tuplized type (for the target field)
or the field's generic identifier into both (for any other field), while
pushing the other fields' generic parameters onto the impl generics. -/
def StructInfo.field_impl (s : StructInfo) (field : FieldInfo) : FieldImplOutput :=
  let base := structTyGenericsArgs s.generics
  let other_fields := s.included_fields.filter (fun f => f.ordinal ≠ field.ordinal)
  let ty_generics := base ++ s.included_fields.map (fun f =>
    if f.ordinal = field.ordinal then GenericArgument.type .unit
    else GenericArgument.type f.type_ident)
  let target_generics := base ++ s.included_fields.map (fun f =>
    if f.ordinal = field.ordinal then GenericArgument.type f.tuplized_type_ty_param
    else GenericArgument.type f.type_ident)
  { builder_name := s.builder_name
    impl_generics := s.generics ++ other_fields.map (fun f => f.generic_ty_param)
    receiver_generics := ty_generics
    setter_name := field.name
    value_generic := field.generic_ident
    value_bound := .intoBound s.core field.ty
    result_generics := target_generics
    body_inits := (phantomFieldName, Expr.selfPhantom)
      :: (field.name, Expr.intoTuple)
      :: other_fields.map (fun f => (f.name, Expr.selfField f.name)) }

/-- One `let` statement of the generated `build` body
(struct_info.rs lines 297-308). -/
inductive Assignment where
  /-- An excluded field with a default: `let name = #default;`. -/
  | letDefault (name : String) (code : String)
  /-- An included field with a default:
  `let name = self.name.#helper_trait_method_name(#default);`. -/
  | letHelper (name : String) (methodName : String) (code : String)
  /-- A field without a default: `let name = self.name.0;`. -/
  | letUnwrap (name : String)
  deriving Repr, DecidableEq

/-- Structured content of the token stream returned by `build_method_impl`
(struct_info.rs lines 323-334). -/
structure BuildMethodOutput where
  builder_name : String
  struct_name : String
  /-- The generic parameters of the impl: the struct's own plus one bounded
  parameter per optional included field (lines 252-275). -/
  impl_generics : List GenericParam
  /-- The generic arguments of the receiver builder type:
  `modified_ty_generics` (lines 280-289). -/
  receiver_generics : List GenericArgument
  /-- The `let` statements of the body, in field declaration order
  (lines 297-308). -/
  assignments : List Assignment
  /-- The field names of the final record literal (line 309). -/
  record_field_names : List String
  deriving Repr, DecidableEq

/-- The per-field closure of the assignments loop (struct_info.rs
lines 297-308): an excluded field with a default binds the default
expression directly, an included field with a default binds the helper
call on its slot, and a field without a default binds the unwrapped
stored tuple element. -/
def StructInfo.build_assignment (s : StructInfo) (f : FieldInfo) : Assignment :=
  match f.builder_attr.default with
  | some code =>
    if f.builder_attr.exclude then Assignment.letDefault f.name code
    else Assignment.letHelper f.name s.conversion_helper_method_name code
  | none => Assignment.letUnwrap f.name

/-- Mirrors `StructInfo::build_method_impl` (struct_info.rs
lines 249-335). -/
def StructInfo.build_method_impl (s : StructInfo) : BuildMethodOutput :=
  let extra_params := (s.included_fields.filter
      (fun f => f.builder_attr.default.isSome)).map
    (fun f => GenericParam.typeParam f.generic_ident
      [.helperBound s.conversion_helper_trait_name f.ty])
  let modified_ty_generics :=
    structTyGenericsArgs s.generics ++ s.included_fields.map (fun f =>
      if f.builder_attr.default.isSome then GenericArgument.type f.type_ident
      else GenericArgument.type f.tuplized_type_ty_param)
  let assignments := s.fields.map s.build_assignment
  { builder_name := s.builder_name
    struct_name := s.name
    impl_generics := s.generics ++ extra_params
    receiver_generics := modified_ty_generics
    assignments := assignments
    record_field_names := s.fields.map (fun f => f.name) }

/-- Runtime value of one builder storage slot: either the unset marker `()`
or the one-element tuple `(v,)` stored by a setter. -/
inductive Slot (α : Type) where
  | unset
  | set (v : α)
  deriving Repr, DecidableEq

/-- The projection `self.name.0` used by `build` for a field without a
default (struct_info.rs line 306).  In Rust it only type-checks because the
build impl pins such a field's slot to `(T,)`; the unset branch is
unreachable there and gets an arbitrary value. -/
def Slot.proj0 {α : Type} [Inhabited α] : Slot α → α
  | .set v => v
  | .unset => default

/-- The meaning of the generated conversion-helper trait, read off its two
impls (struct_info.rs lines 178-188): applied to `()` the method returns
its `default` argument, applied to `(T,)` it returns `self.0`. -/
def conversionHelperFn {α : Type} : Slot α → α → α
  | .unset, d => d
  | .set v, _ => v

/-- Whether one generated impl applies to a slot shape, and the value its
method then returns: `forUnit` matches only the unset shape and returns the
fallback, `forTuple` matches only the set shape and returns the held
element. -/
def HelperImpl.applyTo {α : Type} : HelperImpl → Slot α → α → Option α
  | .forUnit _ _, .unset, d => some d
  | .forTuple _ _, .set v, _ => some v
  | _, _, _ => none

/-- The local bound by one `let` statement of the build body. -/
def Assignment.boundName : Assignment → String
  | .letDefault name _ => name
  | .letHelper name _ _ => name
  | .letUnwrap name => name

/-- Whether executing the statement evaluates a default expression.  Rust
evaluates method arguments by value, so
`self.name.method(#default)` evaluates `#default` before the dispatch,
exactly as `let name = #default;` does. -/
def Assignment.evalsDefault : Assignment → Bool
  | .letDefault _ _ => true
  | .letHelper _ _ _ => true
  | .letUnwrap _ => false

/-- Evaluator for the generated `build` body under Rust's strict
call-by-value semantics.  `evalDef code scope` is the value of a user
default expression evaluated with the given earlier-bound locals in scope;
`store` is the runtime content of the builder's slots.  Returns the final
environment (one binding per statement, in order) and a trace with one
entry per default expression evaluated, recording the local names that
were in scope at that evaluation. -/
def runAssignments {α : Type} [Inhabited α] (evalDef : String → List (String × α) → α)
    (store : String → Slot α) :
    List Assignment → List (String × α) → List (String × α) × List (String × List String)
  | [], env => (env, [])
  | a :: rest, env =>
    match a with
    | .letDefault name code =>
      let v := evalDef code env
      let r := runAssignments evalDef store rest (env ++ [(name, v)])
      (r.1, (name, env.map Prod.fst) :: r.2)
    | .letHelper name _ code =>
      let d := evalDef code env
      let v := conversionHelperFn (store name) d
      let r := runAssignments evalDef store rest (env ++ [(name, v)])
      (r.1, (name, env.map Prod.fst) :: r.2)
    | .letUnwrap name =>
      let v := Slot.proj0 (store name)
      let r := runAssignments evalDef store rest (env ++ [(name, v)])
      (r.1, r.2)

/-- The four fragments emitted for one schema.  Modelled from the spec:
the expansion driver (lib.rs, out of scope) emits the builder declaration
with its constructor, the conversion helper, one setter per included
field, and the build method. -/
structure GeneratedCode where
  creation : BuilderCreationOutput
  helper : ConversionHelperOutput
  setters : List FieldImplOutput
  build : BuildMethodOutput
  deriving Repr, DecidableEq

def StructInfo.generateAll (s : StructInfo) : GeneratedCode :=
  { creation := s.builder_creation_impl
    helper := s.conversion_helper_impl
    setters := s.included_fields.map (fun f => s.field_impl f)
    build := s.build_method_impl }

/-- Every `extern`-alias name through which a generated type references a
standard-library item. -/
def TypeExpr.coreAliases : TypeExpr → List String
  | .phantomData a t => a :: t.coreAliases
  | .tuple1 t => t.coreAliases
  | .ident _ => []
  | .unit => []
  | .lifetimeRefUnit _ => []

def Expr.coreAliases : Expr → List String
  | .coreDefaultCall a => [a]
  | _ => []

def TypeParamBound.coreAliases : TypeParamBound → List String
  | .intoBound a _ => [a]
  | .helperBound _ _ => []

def GenericParam.coreAliases : GenericParam → List String
  | .typeParam _ bounds => (bounds.map TypeParamBound.coreAliases).flatten
  | .lifetime _ => []
  | .constParam _ => []

def GenericArgument.coreAliases : GenericArgument → List String
  | .type t => t.coreAliases
  | .lifetime _ => []

/-- All standard-library reference sites of the builder/constructor
fragment: the PhantomData entries, the `Default::default()` call, and any
aliases inside generic arguments and parameters. -/
def BuilderCreationOutput.coreAliases (o : BuilderCreationOutput) : List String :=
  (o.builder_return_generics.map GenericArgument.coreAliases).flatten
    ++ Expr.coreAliases o.body_phantom_init
    ++ (o.body_field_inits.map (fun p => Expr.coreAliases p.2)).flatten
    ++ (o.struct_generics.map GenericParam.coreAliases).flatten
    ++ (o.struct_phantom_tys.map TypeExpr.coreAliases).flatten

/-- All standard-library reference sites of a setter fragment: the
`convert::Into` bound and any aliases in the generics and the body. -/
def FieldImplOutput.coreAliases (o : FieldImplOutput) : List String :=
  (o.impl_generics.map GenericParam.coreAliases).flatten
    ++ (o.receiver_generics.map GenericArgument.coreAliases).flatten
    ++ TypeParamBound.coreAliases o.value_bound
    ++ (o.result_generics.map GenericArgument.coreAliases).flatten
    ++ (o.body_inits.map (fun p => Expr.coreAliases p.2)).flatten

/-- All standard-library reference sites of the build fragment (its body
uses only locals, slots and the generated helper method, so only the
generics can carry aliases). -/
def BuildMethodOutput.coreAliases (o : BuildMethodOutput) : List String :=
  (o.impl_generics.map GenericParam.coreAliases).flatten
    ++ (o.receiver_generics.map GenericArgument.coreAliases).flatten

/-! Helper lemmas shared by the claim theorems. -/

theorem structTyGenericsArgs_length (g : List GenericParam) :
    (structTyGenericsArgs g).length = g.length := by
  simp [structTyGenericsArgs]

theorem getElem_append_map {α β : Type} (base : List β) (l : List α) (f : α → β)
    (k : Nat) (x : α) (hx : l[k]? = some x) :
    (base ++ l.map f)[base.length + k]? = some (f x) := by
  rw [List.getElem?_append_right (Nat.le_add_right _ _), Nat.add_sub_cancel_left,
    List.getElem?_map, hx]
  rfl

theorem getElem_builder_slot {α β : Type} (base : List β) (l : List α) (f : α → β)
    (n k : Nat) (x : α) (hn : base.length = n) (hx : l[k]? = some x) :
    (base ++ l.map f)[n + k]? = some (f x) := by
  subst hn; exact getElem_append_map base l f k x hx

/-- Concrete example schema used by the witnesses: field `x` is optional
(default `d0`), field `y` is required, field `z` is excluded with the
mandatory default `zd`. -/
def exTBAttr : TypeBuilderAttr :=
  { name := none, doc := false, builder_method_doc := none,
    builder_type_doc := none, build_method_doc := none }

def exAst : DeriveInput :=
  { ident := "Foo", vis := "pub", generics := [], builder_attr := exTBAttr }

def exFieldX : RawField :=
  { name := "x", ty := "u32",
    builder_attr := { default := some "d0", exclude := false, doc := none } }

def exFieldY : RawField :=
  { name := "y", ty := "String",
    builder_attr := { default := none, exclude := false, doc := none } }

def exFieldZ : RawField :=
  { name := "z", ty := "bool",
    builder_attr := { default := some "zd", exclude := true, doc := none } }

def exSchema : StructInfo := StructInfo.new exAst [exFieldX, exFieldY, exFieldZ]

/-- C7: the generated presence-resolution helper is a two-case total
dispatch on the slot's shape: applied to the unset marker `()` it returns
the supplied fallback, applied to a one-element tuple it returns the held
element and ignores the fallback, and exactly these two implementations
are generated. -/
theorem conversion_helper_two_case_dispatch (s : StructInfo) :
    (s.conversion_helper_impl).impls =
      [HelperImpl.forUnit s.conversion_helper_trait_name s.conversion_helper_method_name,
       HelperImpl.forTuple s.conversion_helper_trait_name s.conversion_helper_method_name]
    ∧ (∀ (α : Type) (slot : Slot α) (d : α),
        ∃ i ∈ (s.conversion_helper_impl).impls,
          HelperImpl.applyTo i slot d = some (conversionHelperFn slot d))
    ∧ (∀ (α : Type) (d : α), conversionHelperFn (Slot.unset : Slot α) d = d)
    ∧ (∀ (α : Type) (v d : α), conversionHelperFn (Slot.set v) d = v) := by
  refine ⟨rfl, ?_, fun α d => rfl, fun α v d => rfl⟩
  intro α slot d
  cases slot with
  | unset =>
    exact ⟨HelperImpl.forUnit s.conversion_helper_trait_name s.conversion_helper_method_name,
      by simp [StructInfo.conversion_helper_impl], rfl⟩
  | set v =>
    exact ⟨HelperImpl.forTuple s.conversion_helper_trait_name s.conversion_helper_method_name,
      by simp [StructInfo.conversion_helper_impl], rfl⟩

/-- C4: the generated zero-argument `builder()` constructor returns a
builder whose type instantiates every included field's generic slot with
the unset-shape, whose every included-field storage slot is initialized to
the unset marker `()`, and whose phantom slot is initialized via
`Default::default()`. -/
theorem builder_constructor_all_unset (s : StructInfo) (k : Nat) (f : FieldInfo)
    (h : s.included_fields[k]? = some f) :
    (s.builder_creation_impl).builder_return_generics[s.generics.length + k]? =
        some (GenericArgument.type TypeExpr.unit)
    ∧ (s.builder_creation_impl).body_field_inits[k]? = some (f.name, Expr.unitVal)
    ∧ (s.builder_creation_impl).body_phantom_init = Expr.coreDefaultCall s.core
    ∧ (s.builder_creation_impl).builder_return_generics.length =
        s.generics.length + s.included_fields.length
    ∧ (s.builder_creation_impl).body_field_inits.length = s.included_fields.length := by
  refine ⟨?_, ?_, rfl, ?_, ?_⟩
  · exact getElem_builder_slot _ _ _ _ k f (structTyGenericsArgs_length s.generics) h
  · simp [StructInfo.builder_creation_impl, List.getElem?_map, h]
  · simp [StructInfo.builder_creation_impl, structTyGenericsArgs_length]
  · simp [StructInfo.builder_creation_impl]

theorem builder_constructor_all_unset_witness :
    (exSchema.builder_creation_impl).builder_return_generics[exSchema.generics.length + 0]? =
      some (GenericArgument.type TypeExpr.unit) := by
  exact (builder_constructor_all_unset exSchema 0 (FieldInfo.new 0 exFieldX) (by decide)).1

/-- C2: a setter's receiver type instantiates the target field's generic
slot with the unset-shape (the empty tuple type), which is distinct from
every set-shape, so a builder whose slot for that field is already set
does not match the setter's receiver. -/
theorem setter_receiver_requires_unset (s : StructInfo) (field : FieldInfo)
    (k : Nat) (f : FieldInfo) (h : s.included_fields[k]? = some f)
    (he : f.ordinal = field.ordinal) :
    (s.field_impl field).receiver_generics[s.generics.length + k]? =
        some (GenericArgument.type TypeExpr.unit)
    ∧ ∀ t : TypeExpr,
        GenericArgument.type TypeExpr.unit ≠ GenericArgument.type (TypeExpr.tuple1 t) := by
  constructor
  · have := getElem_builder_slot (structTyGenericsArgs s.generics) s.included_fields
      (fun f => if f.ordinal = field.ordinal then GenericArgument.type .unit
        else GenericArgument.type f.type_ident)
      s.generics.length k f (structTyGenericsArgs_length s.generics) h
    simpa [StructInfo.field_impl, he] using this
  · intro t hcontra
    simp at hcontra

theorem setter_receiver_requires_unset_witness :
    (exSchema.field_impl (FieldInfo.new 0 exFieldX)).receiver_generics[exSchema.generics.length + 0]? =
      some (GenericArgument.type TypeExpr.unit) := by
  exact (setter_receiver_requires_unset exSchema (FieldInfo.new 0 exFieldX) 0
    (FieldInfo.new 0 exFieldX) (by decide) rfl).1

/-- C3: a setter returns a builder whose type equals the receiver's except
that the target field's slot is instantiated to its set-shape; every other
included field's slot carries the same generic argument in receiver and
result and its stored value is moved through unchanged, as is the phantom
slot. -/
theorem setter_frame (s : StructInfo) (field : FieldInfo) (k : Nat) (f : FieldInfo)
    (h : s.included_fields[k]? = some f) :
    (f.ordinal = field.ordinal →
        (s.field_impl field).result_generics[s.generics.length + k]? =
          some (GenericArgument.type (TypeExpr.tuple1 (TypeExpr.ident f.ty))))
    ∧ (f.ordinal ≠ field.ordinal →
        (s.field_impl field).result_generics[s.generics.length + k]? =
            (s.field_impl field).receiver_generics[s.generics.length + k]?
        ∧ (s.field_impl field).result_generics[s.generics.length + k]? =
            some (GenericArgument.type (TypeExpr.ident f.generic_ident))
        ∧ (f.name, Expr.selfField f.name) ∈ (s.field_impl field).body_inits)
    ∧ (∀ j, j < s.generics.length →
        (s.field_impl field).result_generics[j]? =
          (s.field_impl field).receiver_generics[j]?)
    ∧ (s.field_impl field).body_inits.head? = some (phantomFieldName, Expr.selfPhantom)
    ∧ (field.name, Expr.intoTuple) ∈ (s.field_impl field).body_inits := by
  have htgt := getElem_builder_slot (structTyGenericsArgs s.generics) s.included_fields
    (fun g => if g.ordinal = field.ordinal
      then GenericArgument.type g.tuplized_type_ty_param
      else GenericArgument.type g.type_ident)
    s.generics.length k f (structTyGenericsArgs_length s.generics) h
  have hrecv := getElem_builder_slot (structTyGenericsArgs s.generics) s.included_fields
    (fun g => if g.ordinal = field.ordinal
      then GenericArgument.type TypeExpr.unit
      else GenericArgument.type g.type_ident)
    s.generics.length k f (structTyGenericsArgs_length s.generics) h
  refine ⟨?_, ?_, ?_, rfl, ?_⟩
  · intro he
    simpa [StructInfo.field_impl, he, FieldInfo.tuplized_type_ty_param] using htgt
  · intro hne
    have hf : f ∈ s.included_fields := List.getElem?_mem h
    have hmem : (f.name, Expr.selfField f.name) ∈
        (s.included_fields.filter (fun g => g.ordinal ≠ field.ordinal)).map
          (fun g => (g.name, Expr.selfField g.name)) :=
      List.mem_map_of_mem _ (List.mem_filter.2 ⟨hf, by simpa using hne⟩)
    refine ⟨?_, ?_, ?_⟩
    · have h1 : (s.field_impl field).result_generics[s.generics.length + k]? =
          some (GenericArgument.type f.type_ident) := by
        simpa [StructInfo.field_impl, hne] using htgt
      have h2 : (s.field_impl field).receiver_generics[s.generics.length + k]? =
          some (GenericArgument.type f.type_ident) := by
        simpa [StructInfo.field_impl, hne] using hrecv
      rw [h1, h2]
    · simpa [StructInfo.field_impl, hne, FieldInfo.type_ident] using htgt
    · exact List.mem_cons_of_mem _ (List.mem_cons_of_mem _ hmem)
  · intro j hj
    have hj' : j < (structTyGenericsArgs s.generics).length := by
      rw [structTyGenericsArgs_length]; exact hj
    simp only [StructInfo.field_impl]
    rw [List.getElem?_append_left hj', List.getElem?_append_left hj']
  · exact List.mem_cons_of_mem _ (List.mem_cons_self _ _)

theorem setter_frame_witness :
    ((exSchema.field_impl (FieldInfo.new 0 exFieldX)).setter_name, Expr.intoTuple)
      ∈ (exSchema.field_impl (FieldInfo.new 0 exFieldX)).body_inits := by
  exact (setter_frame exSchema (FieldInfo.new 0 exFieldX) 1 (FieldInfo.new 1 exFieldY)
    (by decide)).2.2.2.2

/-- C1: the build impl's receiver builder type pins every required included
field's slot to its set-shape while every optional included field's slot is
a free generic parameter bounded only by the presence-resolution trait at
the field's declared type, and the generated trait impls cover both the
unset and the set shape, so either satisfies the bound. -/
theorem build_receiver_specialization (s : StructInfo) (k : Nat) (f : FieldInfo)
    (h : s.included_fields[k]? = some f) :
    (f.builder_attr.default = none →
        (s.build_method_impl).receiver_generics[s.generics.length + k]? =
          some (GenericArgument.type (TypeExpr.tuple1 (TypeExpr.ident f.ty))))
    ∧ (f.builder_attr.default.isSome = true →
        (s.build_method_impl).receiver_generics[s.generics.length + k]? =
            some (GenericArgument.type (TypeExpr.ident f.generic_ident))
        ∧ GenericParam.typeParam f.generic_ident
            [TypeParamBound.helperBound s.conversion_helper_trait_name f.ty]
            ∈ (s.build_method_impl).impl_generics
        ∧ (∀ (α : Type) (d : α), ∃ i ∈ (s.conversion_helper_impl).impls,
            HelperImpl.applyTo i (Slot.unset : Slot α) d = some d)
        ∧ (∀ (α : Type) (v d : α), ∃ i ∈ (s.conversion_helper_impl).impls,
            HelperImpl.applyTo i (Slot.set v) d = some v)) := by
  have hslot := getElem_builder_slot (structTyGenericsArgs s.generics) s.included_fields
    (fun g => if g.builder_attr.default.isSome
      then GenericArgument.type g.type_ident
      else GenericArgument.type g.tuplized_type_ty_param)
    s.generics.length k f (structTyGenericsArgs_length s.generics) h
  constructor
  · intro hnone
    simpa [StructInfo.build_method_impl, hnone, FieldInfo.tuplized_type_ty_param] using hslot
  · intro hsome
    have hf : f ∈ s.included_fields := List.getElem?_mem h
    refine ⟨?_, ?_, ?_, ?_⟩
    · simpa [StructInfo.build_method_impl, hsome, FieldInfo.type_ident] using hslot
    · have hmem : GenericParam.typeParam f.generic_ident
          [TypeParamBound.helperBound s.conversion_helper_trait_name f.ty] ∈
          ((s.included_fields.filter (fun g => g.builder_attr.default.isSome)).map
            (fun g => GenericParam.typeParam g.generic_ident
              [TypeParamBound.helperBound s.conversion_helper_trait_name g.ty])) :=
        List.mem_map_of_mem _ (List.mem_filter.2 ⟨hf, hsome⟩)
      simp only [StructInfo.build_method_impl]
      exact List.mem_append_right _ hmem
    · intro α d
      exact ⟨HelperImpl.forUnit s.conversion_helper_trait_name s.conversion_helper_method_name,
        by simp [StructInfo.conversion_helper_impl], rfl⟩
    · intro α v d
      exact ⟨HelperImpl.forTuple s.conversion_helper_trait_name s.conversion_helper_method_name,
        by simp [StructInfo.conversion_helper_impl], rfl⟩

theorem build_receiver_specialization_witness :
    (exSchema.build_method_impl).receiver_generics[exSchema.generics.length + 1]? =
      some (GenericArgument.type (TypeExpr.tuple1 (TypeExpr.ident (FieldInfo.new 1 exFieldY).ty))) := by
  exact (build_receiver_specialization exSchema 1 (FieldInfo.new 1 exFieldY)
    (by decide)).1 rfl

/-! Lemmas about the build-body evaluator. -/

theorem build_assignment_boundName (s : StructInfo) (f : FieldInfo) :
    (s.build_assignment f).boundName = f.name := by
  unfold StructInfo.build_assignment
  cases f.builder_attr.default with
  | none => rfl
  | some code =>
    cases hx : f.builder_attr.exclude <;> simp [hx, Assignment.boundName]

theorem build_assignment_evalsDefault (s : StructInfo) (f : FieldInfo)
    (hd : f.builder_attr.default.isSome = true) :
    (s.build_assignment f).evalsDefault = true := by
  unfold StructInfo.build_assignment
  cases hdd : f.builder_attr.default with
  | none => simp [hdd] at hd
  | some code =>
    cases hx : f.builder_attr.exclude <;> simp [hx, Assignment.evalsDefault]

theorem runAssignments_env_names {α : Type} [Inhabited α]
    (evalDef : String → List (String × α) → α) (store : String → Slot α) :
    ∀ (asgts : List Assignment) (env : List (String × α)),
      ((runAssignments evalDef store asgts env).1).map Prod.fst =
        env.map Prod.fst ++ asgts.map Assignment.boundName
  | [], env => by simp [runAssignments]
  | a :: rest, env => by
    cases a with
    | letDefault name code =>
      simp [runAssignments, runAssignments_env_names evalDef store rest,
        Assignment.boundName]
    | letHelper name m code =>
      simp [runAssignments, runAssignments_env_names evalDef store rest,
        Assignment.boundName]
    | letUnwrap name =>
      simp [runAssignments, runAssignments_env_names evalDef store rest,
        Assignment.boundName]

theorem runAssignments_trace_names {α : Type} [Inhabited α]
    (evalDef : String → List (String × α) → α) (store : String → Slot α) :
    ∀ (asgts : List Assignment) (env : List (String × α)),
      ((runAssignments evalDef store asgts env).2).map Prod.fst =
        (asgts.filter Assignment.evalsDefault).map Assignment.boundName
  | [], env => by simp [runAssignments]
  | a :: rest, env => by
    cases a with
    | letDefault name code =>
      simp [runAssignments, runAssignments_trace_names evalDef store rest,
        Assignment.evalsDefault, Assignment.boundName, List.filter_cons]
    | letHelper name m code =>
      simp [runAssignments, runAssignments_trace_names evalDef store rest,
        Assignment.evalsDefault, Assignment.boundName, List.filter_cons]
    | letUnwrap name =>
      simp [runAssignments, runAssignments_trace_names evalDef store rest,
        Assignment.evalsDefault, List.filter_cons]

theorem runAssignments_trace_scopes {α : Type} [Inhabited α]
    (evalDef : String → List (String × α) → α) (store : String → Slot α) :
    ∀ (asgts : List Assignment) (env : List (String × α))
      (e : String × List String), e ∈ (runAssignments evalDef store asgts env).2 →
      ∃ k a, asgts[k]? = some a ∧ e.1 = a.boundName ∧
        e.2 = env.map Prod.fst ++ (asgts.take k).map Assignment.boundName
  | [], env, e => by simp [runAssignments]
  | a :: rest, env, e => by
    cases a with
    | letDefault name code =>
      intro he
      simp only [runAssignments, List.mem_cons] at he
      rcases he with he | he
      · refine ⟨0, Assignment.letDefault name code, by simp, ?_, ?_⟩
        · simp [he, Assignment.boundName]
        · simp [he]
      · obtain ⟨k, b, hk, h1, h2⟩ := runAssignments_trace_scopes evalDef store rest _ e he
        refine ⟨k + 1, b, by simpa using hk, h1, ?_⟩
        simp [h2, Assignment.boundName]
    | letHelper name m code =>
      intro he
      simp only [runAssignments, List.mem_cons] at he
      rcases he with he | he
      · refine ⟨0, Assignment.letHelper name m code, by simp, ?_, ?_⟩
        · simp [he, Assignment.boundName]
        · simp [he]
      · obtain ⟨k, b, hk, h1, h2⟩ := runAssignments_trace_scopes evalDef store rest _ e he
        refine ⟨k + 1, b, by simpa using hk, h1, ?_⟩
        simp [h2, Assignment.boundName]
    | letUnwrap name =>
      intro he
      simp only [runAssignments] at he
      obtain ⟨k, b, hk, h1, h2⟩ := runAssignments_trace_scopes evalDef store rest _ e he
      refine ⟨k + 1, b, by simpa using hk, h1, ?_⟩
      simp [h2, Assignment.boundName]

/-- C5: the build body walks all fields (including excluded ones) in
declaration order, binding one local per field — the default expression
directly for an excluded field, the presence-resolution of the slot
against the default for an included field with a default, the unwrapped
stored element for a field with no default; every default expression is
evaluated with exactly the earlier fields' locals in scope, and the final
record is assembled from these locals, one per field, in field order. -/
theorem build_body_resolution (s : StructInfo)
    (hexc : ∀ f ∈ s.fields, f.builder_attr.exclude = true →
      f.builder_attr.default.isSome = true) :
    (∀ (k : Nat) (f : FieldInfo), s.fields[k]? = some f →
      (f.builder_attr.exclude = true → ∃ code, f.builder_attr.default = some code ∧
          (s.build_method_impl).assignments[k]? =
            some (Assignment.letDefault f.name code))
      ∧ (∀ code, f.builder_attr.exclude = false → f.builder_attr.default = some code →
          (s.build_method_impl).assignments[k]? =
            some (Assignment.letHelper f.name s.conversion_helper_method_name code))
      ∧ (f.builder_attr.default = none →
          (s.build_method_impl).assignments[k]? = some (Assignment.letUnwrap f.name)))
    ∧ (∀ (α : Type) [Inhabited α] (evalDef : String → List (String × α) → α)
        (store : String → Slot α),
        ((runAssignments evalDef store (s.build_method_impl).assignments []).1).map
            Prod.fst =
          s.fields.map FieldInfo.name)
    ∧ (∀ (α : Type) [Inhabited α] (evalDef : String → List (String × α) → α)
        (store : String → Slot α) (e : String × List String),
        e ∈ (runAssignments evalDef store (s.build_method_impl).assignments []).2 →
        ∃ (k : Nat) (f : FieldInfo), s.fields[k]? = some f ∧ e.1 = f.name ∧
          e.2 = (s.fields.take k).map FieldInfo.name)
    ∧ (s.build_method_impl).record_field_names = s.fields.map FieldInfo.name := by
  have hasgts : (s.build_method_impl).assignments = s.fields.map s.build_assignment := rfl
  refine ⟨?_, ?_, ?_, rfl⟩
  · intro k f hk
    have hk2 : (s.build_method_impl).assignments[k]? = some (s.build_assignment f) := by
      rw [hasgts, List.getElem?_map, hk]; rfl
    refine ⟨?_, ?_, ?_⟩
    · intro hx
      have hd := hexc f (List.getElem?_mem hk) hx
      obtain ⟨code, hcode⟩ := Option.isSome_iff_exists.1 hd
      exact ⟨code, hcode, by
        rw [hk2]; simp [StructInfo.build_assignment, hcode, hx]⟩
    · intro code hx hcode
      rw [hk2]; simp [StructInfo.build_assignment, hcode, hx]
    · intro hnone
      rw [hk2]; simp [StructInfo.build_assignment, hnone]
  · intro α inst evalDef store
    rw [runAssignments_env_names, hasgts]
    simp [List.map_map, Function.comp, build_assignment_boundName]
  · intro α inst evalDef store e he
    obtain ⟨k, a, hk, h1, h2⟩ :=
      runAssignments_trace_scopes evalDef store (s.build_method_impl).assignments [] e he
    rw [hasgts, List.getElem?_map] at hk
    obtain ⟨f, hf, hfa⟩ := Option.map_eq_some'.1 hk
    refine ⟨k, f, hf, ?_, ?_⟩
    · rw [h1, ← hfa, build_assignment_boundName]
    · rw [h2, hasgts]
      have hcomp : Assignment.boundName ∘ s.build_assignment = FieldInfo.name :=
        funext (fun g => build_assignment_boundName s g)
      simp [List.map_take, List.map_map, hcomp]

theorem build_body_resolution_witness :
    (exSchema.build_method_impl).record_field_names = exSchema.fields.map FieldInfo.name := by
  exact (build_body_resolution exSchema (by decide)).2.2.2

/-- Single-field example schema for the default-evaluation analysis: one
included field `x` with default expression `d0`. -/
def exSchemaOne : StructInfo := StructInfo.new exAst [exFieldX]

/-- Example runtime state: every slot is in set-shape holding `42`. -/
def exStore : String → Slot Nat := fun _ => Slot.set 42

/-- Example evaluation of default expressions: every default evaluates
to `7`. -/
def exEvalDef : String → List (String × Nat) → Nat := fun _ _ => 7

/-- C6 counterexample: in the generated
`let x = self.x.helper_method(default);` the default expression is an
eagerly evaluated method argument, so with `x`'s slot in set-shape the
default is still evaluated (it appears in the evaluation trace), even
though the result is the stored value `42`, not the default's value `7`. -/
theorem build_default_lazy_counterexample :
    exStore "x" = Slot.set 42
    ∧ (FieldInfo.new 0 exFieldX).builder_attr.default.isSome = true
    ∧ "x" ∈ ((runAssignments exEvalDef exStore
        (exSchemaOne.build_method_impl).assignments []).2).map Prod.fst
    ∧ (runAssignments exEvalDef exStore
        (exSchemaOne.build_method_impl).assignments []).1 = [("x", 42)] := by
  refine ⟨rfl, rfl, ?_, rfl⟩
  simp [exSchemaOne, StructInfo.new, exAst, exFieldX, StructInfo.build_method_impl,
    StructInfo.build_assignment, runAssignments, FieldInfo.new, exTBAttr]

/-- C6 amended: for every field with a default expression, finalizing
evaluates that default expression unconditionally (Rust evaluates the
helper-method argument by value before dispatch), regardless of the slot's
state; the presence-resolution then discards the evaluated default when
the slot is set and returns the stored value. -/
theorem build_default_evaluated_unconditionally (s : StructInfo) (k : Nat)
    (f : FieldInfo) (hk : s.fields[k]? = some f)
    (hd : f.builder_attr.default.isSome = true) :
    (∀ (α : Type) [Inhabited α] (evalDef : String → List (String × α) → α)
        (store : String → Slot α),
      f.name ∈ ((runAssignments evalDef store
        (s.build_method_impl).assignments []).2).map Prod.fst)
    ∧ (∀ (α : Type) (v d : α), conversionHelperFn (Slot.set v) d = v)
    ∧ (∀ (α : Type) (d : α), conversionHelperFn (Slot.unset : Slot α) d = d) := by
  refine ⟨?_, fun α v d => rfl, fun α d => rfl⟩
  intro α inst evalDef store
  rw [runAssignments_trace_names]
  have hf : f ∈ s.fields := List.getElem?_mem hk
  have hmem : s.build_assignment f ∈
      ((s.build_method_impl).assignments.filter Assignment.evalsDefault) := by
    refine List.mem_filter.2 ⟨List.mem_map_of_mem _ hf, ?_⟩
    exact build_assignment_evalsDefault s f hd
  have := List.mem_map_of_mem Assignment.boundName hmem
  rwa [build_assignment_boundName] at this

theorem build_default_evaluated_unconditionally_witness :
    "x" ∈ ((runAssignments exEvalDef exStore
        (exSchemaOne.build_method_impl).assignments []).2).map Prod.fst := by
  have h := build_default_evaluated_unconditionally exSchemaOne 0
    (FieldInfo.new 0 exFieldX) (by decide) (by decide)
  exact h.1 Nat exEvalDef exStore

/-- Example schema with an excluded field between two included fields:
`x` (included), `z` (excluded), `y` (included). -/
def exSchemaMid : StructInfo := StructInfo.new exAst [exFieldX, exFieldZ, exFieldY]

/-- C8 counterexample: `StructInfo::new` enumerates all fields, so when an
excluded field sits between included ones the included fields' ordinals
are `[0, 2]` — unique but not dense (`0..2` would be `[0, 1]`). -/
theorem ordinals_dense_counterexample :
    (exSchemaMid.included_fields.map FieldInfo.ordinal) = [0, 2]
    ∧ (exSchemaMid.included_fields.map FieldInfo.ordinal) ≠
        List.range exSchemaMid.included_fields.length := by
  refine ⟨by decide, by decide⟩

/-- C8 amended: the ordinals assigned by `StructInfo::new` are unique and
dense over ALL fields (they are exactly `0..n` in declaration order);
restricted to the included fields they are unique and strictly increasing,
but may have gaps when excluded fields appear between included ones. -/
theorem ordinals_dense_over_all_fields (ast : DeriveInput) (fields : List RawField) :
    ((StructInfo.new ast fields).fields.map FieldInfo.ordinal) =
        List.range fields.length
    ∧ ((StructInfo.new ast fields).included_fields.map FieldInfo.ordinal).Pairwise
        (· < ·) := by
  have hall : ((StructInfo.new ast fields).fields.map FieldInfo.ordinal) =
      List.range fields.length := by
    show ((fields.enum.map (fun p => FieldInfo.new p.1 p.2)).map FieldInfo.ordinal) = _
    rw [List.map_map]
    have hcomp : (FieldInfo.ordinal ∘ fun p : Nat × RawField => FieldInfo.new p.1 p.2) =
        Prod.fst := rfl
    rw [hcomp, List.enum_map_fst]
  refine ⟨hall, ?_⟩
  have hsub : List.Sublist
      ((StructInfo.new ast fields).included_fields.map FieldInfo.ordinal)
      (((StructInfo.new ast fields).fields).map FieldInfo.ordinal) :=
    (List.filter_sublist _).map _
  rw [hall] at hsub
  exact (List.sorted_lt_range fields.length).sublist hsub

/-- C9: generation is deterministic and idempotent — the same schema value
always yields the same structured output, and every minted identifier
(conversion-helper trait and method names, core alias, and, absent an
override, the builder name) depends only on the record name, with no
counter or global state. -/
theorem generation_deterministic (ast1 ast2 : DeriveInput)
    (fields1 fields2 : List RawField) (hname : ast1.ident = ast2.ident) :
    (StructInfo.new ast1 fields1).generateAll = (StructInfo.new ast1 fields1).generateAll
    ∧ (StructInfo.new ast1 fields1).conversion_helper_trait_name =
        (StructInfo.new ast2 fields2).conversion_helper_trait_name
    ∧ (StructInfo.new ast1 fields1).conversion_helper_method_name =
        (StructInfo.new ast2 fields2).conversion_helper_method_name
    ∧ (StructInfo.new ast1 fields1).core = (StructInfo.new ast2 fields2).core
    ∧ (ast1.builder_attr.name = ast2.builder_attr.name →
        (StructInfo.new ast1 fields1).builder_name =
          (StructInfo.new ast2 fields2).builder_name) := by
  refine ⟨rfl, ?_, ?_, ?_, ?_⟩
  · simp [StructInfo.new, make_identifier, hname]
  · simp [StructInfo.new, make_identifier, hname]
  · simp [StructInfo.new, make_identifier, hname]
  · intro hattr
    cases h2 : ast2.builder_attr.name <;>
      simp [StructInfo.new, hname, hattr, h2]

theorem generation_deterministic_witness :
    (StructInfo.new exAst []).core = (StructInfo.new exAst [exFieldX]).core := by
  exact (generation_deterministic exAst exAst [] [exFieldX] rfl).2.2.2.1

theorem mem_flatten_map {α β : Type} (l : List α) (f : α → List β) (a : β)
    (h : a ∈ (l.map f).flatten) : ∃ x ∈ l, a ∈ f x := by
  obtain ⟨ys, hys, ha⟩ := List.mem_flatten.1 h
  obtain ⟨x, hx, rfl⟩ := List.mem_map.1 hys
  exact ⟨x, hx, ha⟩

theorem builder_creation_aliases (s : StructInfo)
    (hb : ∀ p ∈ s.generics, GenericParam.coreAliases p = []) :
    ∀ a ∈ (s.builder_creation_impl).coreAliases, a = s.core := by
  intro a ha
  simp only [StructInfo.builder_creation_impl, BuilderCreationOutput.coreAliases,
    List.mem_append] at ha
  rcases ha with (((h | h) | h) | h) | h
  · obtain ⟨x, hx, hax⟩ := mem_flatten_map _ _ _ h
    rcases List.mem_append.1 hx with hx | hx
    · obtain ⟨p, hp, rfl⟩ := List.mem_map.1 hx
      cases p <;>
        simp [structTyGenericsArgs, GenericArgument.coreAliases,
          TypeExpr.coreAliases] at hax
    · obtain ⟨g, hg, rfl⟩ := List.mem_map.1 hx
      simp [GenericArgument.coreAliases, TypeExpr.coreAliases] at hax
  · simpa [Expr.coreAliases] using h
  · obtain ⟨x, hx, hax⟩ := mem_flatten_map _ _ _ h
    obtain ⟨g, hg, rfl⟩ := List.mem_map.1 hx
    simp [Expr.coreAliases] at hax
  · obtain ⟨x, hx, hax⟩ := mem_flatten_map _ _ _ h
    rcases List.mem_append.1 hx with hx | hx
    · rw [hb x hx] at hax
      simp at hax
    · obtain ⟨g, hg, rfl⟩ := List.mem_map.1 hx
      simp [FieldInfo.generic_ty_param, GenericParam.coreAliases] at hax
  · obtain ⟨t, ht, hat⟩ := mem_flatten_map _ _ _ h
    obtain ⟨p, hp, rfl⟩ := List.mem_map.1 ht
    cases p <;> simpa [TypeExpr.coreAliases] using hat

theorem field_impl_aliases (s : StructInfo) (field : FieldInfo)
    (hb : ∀ p ∈ s.generics, GenericParam.coreAliases p = []) :
    ∀ a ∈ (s.field_impl field).coreAliases, a = s.core := by
  intro a ha
  simp only [StructInfo.field_impl, FieldImplOutput.coreAliases,
    List.mem_append] at ha
  rcases ha with (((h | h) | h) | h) | h
  · obtain ⟨x, hx, hax⟩ := mem_flatten_map _ _ _ h
    rcases List.mem_append.1 hx with hx | hx
    · rw [hb x hx] at hax
      simp at hax
    · obtain ⟨g, hg, rfl⟩ := List.mem_map.1 hx
      simp [FieldInfo.generic_ty_param, GenericParam.coreAliases] at hax
  · obtain ⟨x, hx, hax⟩ := mem_flatten_map _ _ _ h
    rcases List.mem_append.1 hx with hx | hx
    · obtain ⟨p, hp, rfl⟩ := List.mem_map.1 hx
      cases p <;>
        simp [structTyGenericsArgs, GenericArgument.coreAliases,
          TypeExpr.coreAliases] at hax
    · obtain ⟨g, hg, rfl⟩ := List.mem_map.1 hx
      by_cases hc : g.ordinal = field.ordinal <;>
        simp [hc, GenericArgument.coreAliases, TypeExpr.coreAliases,
          FieldInfo.type_ident] at hax
  · simpa [TypeParamBound.coreAliases] using h
  · obtain ⟨x, hx, hax⟩ := mem_flatten_map _ _ _ h
    rcases List.mem_append.1 hx with hx | hx
    · obtain ⟨p, hp, rfl⟩ := List.mem_map.1 hx
      cases p <;>
        simp [structTyGenericsArgs, GenericArgument.coreAliases,
          TypeExpr.coreAliases] at hax
    · obtain ⟨g, hg, rfl⟩ := List.mem_map.1 hx
      by_cases hc : g.ordinal = field.ordinal <;>
        simp [hc, GenericArgument.coreAliases, TypeExpr.coreAliases,
          FieldInfo.type_ident, FieldInfo.tuplized_type_ty_param] at hax
  · obtain ⟨x, hx, hax⟩ := mem_flatten_map _ _ _ h
    rcases List.mem_cons.1 hx with hx | hx
    · rw [hx] at hax
      simp [Expr.coreAliases] at hax
    · rcases List.mem_cons.1 hx with hx | hx
      · rw [hx] at hax
        simp [Expr.coreAliases] at hax
      · obtain ⟨g, hg, rfl⟩ := List.mem_map.1 hx
        simp [Expr.coreAliases] at hax

theorem build_method_aliases (s : StructInfo)
    (hb : ∀ p ∈ s.generics, GenericParam.coreAliases p = []) :
    ∀ a ∈ (s.build_method_impl).coreAliases, a = s.core := by
  intro a ha
  simp only [StructInfo.build_method_impl, BuildMethodOutput.coreAliases,
    List.mem_append] at ha
  rcases ha with h | h
  · obtain ⟨x, hx, hax⟩ := mem_flatten_map _ _ _ h
    rcases List.mem_append.1 hx with hx | hx
    · rw [hb x hx] at hax
      simp at hax
    · obtain ⟨g, hg, rfl⟩ := List.mem_map.1 hx
      simp [GenericParam.coreAliases, TypeParamBound.coreAliases] at hax
  · obtain ⟨x, hx, hax⟩ := mem_flatten_map _ _ _ h
    rcases List.mem_append.1 hx with hx | hx
    · obtain ⟨p, hp, rfl⟩ := List.mem_map.1 hx
      cases p <;>
        simp [structTyGenericsArgs, GenericArgument.coreAliases,
          TypeExpr.coreAliases] at hax
    · obtain ⟨g, hg, rfl⟩ := List.mem_map.1 hx
      by_cases hc : g.builder_attr.default.isSome <;>
        simp [hc, GenericArgument.coreAliases, TypeExpr.coreAliases,
          FieldInfo.type_ident, FieldInfo.tuplized_type_ty_param] at hax

/-- C10: every standard-library reference in the generated fragments
(PhantomData, Default::default, convert::Into) is routed through the
extern-crate core alias minted deterministically from the record name, and
that alias is declared alongside the builder; no fragment names a
standard-library item through any other path. -/
theorem std_refs_via_core_alias (ast : DeriveInput) (fields : List RawField)
    (field : FieldInfo)
    (hb : ∀ p ∈ ast.generics, GenericParam.coreAliases p = []) :
    ((StructInfo.new ast fields).builder_creation_impl).core_alias_decl =
        make_identifier "core" ast.ident
    ∧ (∀ a ∈ ((StructInfo.new ast fields).builder_creation_impl).coreAliases,
        a = make_identifier "core" ast.ident)
    ∧ (∀ a ∈ ((StructInfo.new ast fields).field_impl field).coreAliases,
        a = make_identifier "core" ast.ident)
    ∧ (∀ a ∈ ((StructInfo.new ast fields).build_method_impl).coreAliases,
        a = make_identifier "core" ast.ident) := by
  have hcore : (StructInfo.new ast fields).core = make_identifier "core" ast.ident := rfl
  have hg : ∀ p ∈ (StructInfo.new ast fields).generics,
      GenericParam.coreAliases p = [] := hb
  refine ⟨rfl, ?_, ?_, ?_⟩ <;> rw [← hcore]
  · exact builder_creation_aliases _ hg
  · exact field_impl_aliases _ field hg
  · exact build_method_aliases _ hg

theorem std_refs_via_core_alias_witness :
    ((StructInfo.new exAst [exFieldX]).builder_creation_impl).core_alias_decl =
      make_identifier "core" exAst.ident := by
  exact (std_refs_via_core_alias exAst [exFieldX] (FieldInfo.new 0 exFieldX)
    (by simp [exAst])).1

end TypedBuilder
